import Mathlib

/-!
Verification of the EPDS service (carlosmsanchezm/SysEng5900-EPDS).

A shallow embedding of the Go sources:
* `cmd/epds-service/main.go` — the request orchestrator `handleSubmitEPDS`
  (form extraction, answer validation, scoring, auth, patient resolution,
  Observation / Flag / Communication creation);
* `internal/auth` — the token cache (`GetAuthToken`, `fetchNewToken`);
* `internal/fhir` — the FHIR search and create helpers
  (`FindPatientIDByIdentifier`, `FindActiveEncounterID`,
  `FindEncounterByAppointment`, `CreateObservation`, `CreateFlag`,
  `CreateCommunication`).

Remote HTTP interactions are abstracted by an environment `Env` recording,
for each possible outbound call, the outcome the remote end would produce.
The handler returns both its HTTP response and the ordered trace of remote
calls it performed, so that temporal claims ("no lookup calls occur") are
statements about the trace.

Machine integers are modelled as `Int` (Go `int` on a 64-bit platform);
`strconv.Atoi`'s overflow behaviour is reproduced with explicit bounds.
-/

deriving instance DecidableEq for Except

namespace EPDS

/-! ### `strconv.Atoi` (Go standard library, as used by the handler)

Go's `strconv.Atoi` accepts an optional leading sign followed by one or
more ASCII digits, and fails (`ErrRange`) when the value does not fit in
a signed 64-bit integer. -/

/-- Digits of a decimal literal folded to a `Nat`, most significant first. -/
def digitsToNat (l : List Char) : Nat :=
  l.foldl (fun acc c => 10 * acc + (c.toNat - 48)) 0

/-- Model of Go `strconv.Atoi`: optional sign, all ASCII digits, 64-bit range. -/
def atoi (s : String) : Option Int :=
  match s.data with
  | [] => none
  | c :: rest =>
    let (neg, digits) :=
      if c = '-' then (true, rest)
      else if c = '+' then (false, rest)
      else (false, c :: rest)
    if digits = [] then none
    else if digits.all Char.isDigit then
      let n := digitsToNat digits
      if neg then
        if n ≤ 2 ^ 63 then some (-(n : Int)) else none
      else
        if n ≤ 2 ^ 63 - 1 then some (n : Int) else none
    else none

/-! ### Form data

`r.FormValue` returns the empty string when a field is absent, so a form is
modelled as total string-valued fields, `""` meaning "not supplied".
The ten answers are reached through `q : Nat → String` (`q i` is the value
of field `qi`). -/

structure Form where
  patientId : String
  patientIdentifierSystem : String
  patientIdentifierValue : String
  encounterId : String
  appointmentId : String
  q : Nat → String

/-- Go `unicode.IsSpace` on the characters relevant here (ASCII whitespace
plus the two Latin-1 spaces; the remaining Unicode space category is not
modelled). -/
def isSpaceChar (c : Char) : Bool :=
  c = ' ' || c = '\t' || c = '\n' || c = (Char.ofNat 11) || c = (Char.ofNat 12) ||
    c = '\r' || c = (Char.ofNat 0x85) || c = (Char.ofNat 0xA0)

/-- Go `strings.TrimSpace`: drop leading and trailing whitespace. -/
def trimSpace (s : String) : String :=
  ⟨((s.data.dropWhile isSpaceChar).reverse.dropWhile isSpaceChar).reverse⟩

/-! ### Answer validation (`main.go`, the `for i := 1; i <= 10` loop) -/

/-- Error message for a missing answer (`main.go`). -/
def msgMissing (i : Nat) : String :=
  "Invalid input: q" ++ toString i ++ " is required"

/-- Error message for a non-integer answer (`main.go`). -/
def msgNotInt (i : Nat) : String :=
  "Invalid input: q" ++ toString i ++ " must be an integer"

/-- Error message for an out-of-range answer (`main.go`). -/
def msgRange (i : Nat) : String :=
  "Invalid input: q" ++ toString i ++ " score must be between 0 and 3"

/-- One iteration of the validation loop: the checks on field `qi`, in the
order `main.go` performs them (missing, non-integer, out of `[0,3]`). -/
def checkAnswer (q : Nat → String) (i : Nat) : Except String Int :=
  let s := q i
  if s = "" then .error (msgMissing i)
  else
    match atoi s with
    | none => .error (msgNotInt i)
    | some v =>
      if v < 0 ∨ v > 3 then .error (msgRange i) else .ok v

/-- The validation loop over a list of question indices; the first failing
index aborts, as the Go loop `return`s on first violation. -/
def collectScores (q : Nat → String) : List Nat → Except String (List Int)
  | [] => .ok []
  | i :: rest =>
    match checkAnswer q i with
    | .error e => .error e
    | .ok v =>
      match collectScores q rest with
      | .error e => .error e
      | .ok vs => .ok (v :: vs)

/-- Indices `1..10` of the EPDS questions. -/
def questionIndices : List Nat := (List.range 10).map (· + 1)

/-- `epdsScores` as produced by the validation loop of `handleSubmitEPDS`. -/
def validateScores (form : Form) : Except String (List Int) :=
  collectScores form.q questionIndices

/-! ### Score engine (`main.go`, steps 3 and 6) -/

/-- `totalScore := 0; for _, score := range epdsScores { totalScore += score }`. -/
def sumScores (scores : List Int) : Int :=
  scores.foldl (fun acc s => acc + s) 0

/-- `q10Score := epdsScores[9]` (defaulting matters only off the length-10 case). -/
def q10Of (scores : List Int) : Int := scores.getD 9 0

/-- `isHighRisk := totalScore >= 13 || q10Score >= 1` (`main.go`). -/
def isHighRisk (totalScore q10Score : Int) : Bool :=
  decide (totalScore ≥ 13) || decide (q10Score ≥ 1)

/-! ### Token cache, search and create helpers, orchestrator: see below;
theorems follow all definitions. -/



/-! ### Token cache (`internal/auth/authenticator.go`)

Time is modelled in seconds as `Int`.  The outcome of the (at most one)
HTTP exchange with the identity service is an explicit parameter: the
status code together with the decoded success payload when the body
parses (`none` models an unparseable body). -/

/-- Decoded success payload of the identity service (`AuthResponse`). -/
structure AuthResponse where
  accessToken : String
  expiresIn : Int
deriving DecidableEq, Repr

/-- Outcome of one POST to the identity service, as seen by `fetchNewToken`. -/
inductive AuthFetchOutcome
  | netError
  | resp (status : Nat) (body : Option AuthResponse)
deriving DecidableEq, Repr

/-- Failure classes of `fetchNewToken` (each is a distinct Go error value). -/
inductive AuthErr
  | requestFailed
  | apiError (status : Nat)
  | unmarshalFailed
  | emptyToken
deriving DecidableEq, Repr

/-- Cache state of `auth.Authenticator` (token `""` = no token cached yet). -/
structure Authenticator where
  token : String
  expiry : Int
  tokenBuffer : Int
deriving DecidableEq, Repr

/-- `NewAuthenticator`: empty cache, 5-minute (300 s) refresh buffer. -/
def NewAuthenticator : Authenticator :=
  { token := "", expiry := 0, tokenBuffer := 300 }

/-- The cached-token validity test used (twice) by the authenticator:
`a.token != "" && time.Now().Before(a.expiry.Add(-a.tokenBuffer))`. -/
def tokenValid (a : Authenticator) (now : Int) : Bool :=
  decide (a.token ≠ "") && decide (now < a.expiry - a.tokenBuffer)

/-- `fetchNewToken`: the double-check under the write lock, then the exchange.
Returns the result and the updated cache state. -/
def fetchNewToken (now : Int) (outcome : AuthFetchOutcome) (a : Authenticator) :
    Except AuthErr String × Authenticator :=
  if tokenValid a now then (.ok a.token, a)
  else
    match outcome with
    | .netError => (.error .requestFailed, a)
    | .resp status body =>
      if status ≠ 200 then (.error (.apiError status), a)
      else
        match body with
        | none => (.error .unmarshalFailed, a)
        | some r =>
          if r.accessToken = "" then (.error .emptyToken, a)
          else (.ok r.accessToken,
                { a with token := r.accessToken, expiry := now + r.expiresIn })

/-- `GetAuthToken`: read-locked validity check, else delegate to
`fetchNewToken`.  The `Bool` records whether an identity-service exchange
was performed. -/
def GetAuthToken (now : Int) (outcome : AuthFetchOutcome) (a : Authenticator) :
    Except AuthErr String × Authenticator × Bool :=
  if tokenValid a now then (.ok a.token, a, false)
  else
    let r := fetchNewToken now outcome a
    (r.1, r.2, true)

/-! ### FHIR search helpers (`internal/fhir/patient_lookup` file, `part_002`)

A search response is abstracted to: network failure, or a status code with
the decoded bundle (`none` = body does not decode; entries are each
entry's parsed `id` field, `none` = the entry's resource does not
unmarshal). -/

/-- Outcome of one FHIR search request as seen by the Go helpers. -/
inductive FhirSearchResult
  | netError
  | resp (status : Nat) (body : Option (List (Option String)))
deriving DecidableEq, Repr

/-- Failure classes of the search helpers (each a distinct Go error). -/
inductive LookupErr
  | searchFailed
  | badStatus (status : Nat)
  | decodeFailed
  | notFound
  | idParseFailed
  | idMissing
deriving DecidableEq, Repr

/-- Shared body of `FindPatientIDByIdentifier` / `FindActiveEncounterID`
(and, per the spec, `FindEncounterByAppointment`): non-200 is an error,
an empty bundle is not-found, and the first entry's id is returned if
present and non-empty. -/
def searchResultID (res : FhirSearchResult) : Except LookupErr String :=
  match res with
  | .netError => .error .searchFailed
  | .resp status body =>
    if status ≠ 200 then .error (.badStatus status)
    else
      match body with
      | none => .error .decodeFailed
      | some [] => .error .notFound
      | some (none :: _) => .error .idParseFailed
      | some (some id :: _) => if id = "" then .error .idMissing else .ok id

/-- `fhir.FindPatientIDByIdentifier` applied to the remote outcome of
`GET /Patient?identifier={system}|{value}`. -/
def FindPatientIDByIdentifier (res : FhirSearchResult) : Except LookupErr String :=
  searchResultID res

/-- `fhir.FindActiveEncounterID` applied to the remote outcome of
`GET /Encounter?subject=Patient/{id}&status=arrived,in-progress&_sort=-date&_count=1`. -/
def FindActiveEncounterID (res : FhirSearchResult) : Except LookupErr String :=
  searchResultID res

/-- Modelled from the spec: `fhir.FindEncounterByAppointment` is called by
`handleSubmitEPDS` but its definition is not among the provided sources;
§4.3 specifies it looks up encounters linked to the appointment,
most-recent first, returning the top one, failing with not-found on an
empty result set and malformed when the top hit lacks an id — the same
shape as the two search helpers above. -/
def FindEncounterByAppointment (res : FhirSearchResult) : Except LookupErr String :=
  searchResultID res

/-! ### FHIR create helpers (`internal/fhir`: observation, flag, communication) -/

/-- Outcome of one FHIR create request: network failure, or a status code
with the created resource's parsed `id` (`none` = body does not decode). -/
inductive FhirCreateResult
  | netError
  | resp (status : Nat) (body : Option String)
deriving DecidableEq, Repr

/-- Failure classes of the create helpers. -/
inductive CreateErr
  | requestFailed
  | apiError (status : Nat)
  | parseFailed
  | missingID
deriving DecidableEq, Repr

/-- Shared body of `CreateObservation` / `CreateFlag` / `CreateCommunication`:
only 201 is success, the body must decode, and the id must be non-empty. -/
def createResultID (res : FhirCreateResult) : Except CreateErr String :=
  match res with
  | .netError => .error .requestFailed
  | .resp status body =>
    if status ≠ 201 then .error (.apiError status)
    else
      match body with
      | none => .error .parseFailed
      | some id => if id = "" then .error .missingID else .ok id

/-- The `encounter` field of the Flag payload (`flag.go`): present with
reference `Encounter/{id}` exactly when a non-empty encounter id was
passed, absent otherwise (patient-scoped flag). -/
def flagEncounterRef (encounterID : String) : Option String :=
  if encounterID ≠ "" then some ("Encounter/" ++ encounterID) else none

/-! ### The request orchestrator (`handleSubmitEPDS`, `main.go`)

The handler is modelled on a POST request whose form data parsed
(`r.ParseForm` succeeded); `strings.TrimSpace` is modelled by
`trimSpace`.  Every outbound HTTP interaction is recorded, in order, in
a trace of `RemoteCall` events; the outcome each remote end would return
is supplied by an `Env`. -/

/-- One outbound remote call of the handler. -/
inductive RemoteCall
  | authFetch
  | patientSearch (system value : String)
  | encounterByAppointment (appointmentID : String)
  | encounterBySubject (patientID : String)
  | createObservation (patientID : String) (totalScore : Int)
  | createFlag (patientID encounterID : String) (totalScore q10Score : Int)
  | createCommunication (patientID providerID : String) (totalScore q10Score : Int)
deriving DecidableEq, Repr

/-- Body of the handler's JSON response: `sendJSONError` produces
`{status:"error", message:...}` (the `error` case) and the success path
produces `{status:"success", observationId:..., calculatedScore:...}`. -/
inductive RespBody
  | error (message : String)
  | success (observationId : String) (calculatedScore : Int)
deriving DecidableEq, Repr

/-- An HTTP response: status code and JSON body. -/
structure Response where
  code : Nat
  body : RespBody
deriving DecidableEq, Repr

/-- Outcomes the remote services would produce for each possible call of
one request, plus the configured alert recipient (`cfg.AlertProviderFHIRID`). -/
structure Env where
  now : Int
  authOutcome : AuthFetchOutcome
  patientSearch : String → String → FhirSearchResult
  encounterByAppt : String → FhirSearchResult
  encounterBySubject : String → FhirSearchResult
  obsCreate : String → Int → FhirCreateResult
  flagCreate : String → String → Int → Int → FhirCreateResult
  commCreate : String → String → Int → Int → FhirCreateResult
  alertProviderFHIRID : String

/-- The cascading encounter discovery of step 6 (`main.go`): skipped when an
explicit encounter id is present; else appointment-based lookup when an
appointment id is present, falling back to the subject-based lookup; a
failed lookup leaves the encounter id empty rather than aborting.
Returns the (possibly still empty) encounter id and the lookup calls made. -/
def cascade (env : Env) (patientID encID apptID : String) :
    String × List RemoteCall :=
  if encID = "" then
    let step1 : String × List RemoteCall :=
      if apptID ≠ "" then
        match FindEncounterByAppointment (env.encounterByAppt apptID) with
        | .ok found => (found, [.encounterByAppointment apptID])
        | .error _ => (encID, [.encounterByAppointment apptID])
      else (encID, [])
    if step1.1 = "" then
      match FindActiveEncounterID (env.encounterBySubject patientID) with
      | .ok found => (found, step1.2 ++ [.encounterBySubject patientID])
      | .error _ => (step1.1, step1.2 ++ [.encounterBySubject patientID])
    else step1
  else (encID, [])

/-- Steps 5–7 of the handler, after the subject id is known: create the
Observation (fatal on failure), then on high risk run the cascade and the
best-effort Flag and Communication calls (results only logged), then
answer success with the Observation id and the total. -/
def createAndRespond (env : Env) (totalScore q10Score : Int)
    (patientID encID apptID : String) : Response × List RemoteCall :=
  match createResultID (env.obsCreate patientID totalScore) with
  | .error _ =>
    (⟨500, .error "Failed to create FHIR Observation"⟩,
      [.createObservation patientID totalScore])
  | .ok observationId =>
    if isHighRisk totalScore q10Score then
      let c := cascade env patientID encID apptID
      let _flagResult := createResultID (env.flagCreate patientID c.1 totalScore q10Score)
      let _commResult := createResultID
        (env.commCreate patientID env.alertProviderFHIRID totalScore q10Score)
      (⟨200, .success observationId totalScore⟩,
        .createObservation patientID totalScore ::
          (c.2 ++ [.createFlag patientID c.1 totalScore q10Score,
                   .createCommunication patientID env.alertProviderFHIRID totalScore q10Score]))
    else
      (⟨200, .success observationId totalScore⟩,
        [.createObservation patientID totalScore])

/-- Step 4's patient resolution: a directly supplied id is used as is; else
the identifier pair must be complete and the identifier search must
succeed; any search failure is answered `400 patient not found from
identifier`. -/
def resolveAndContinue (env : Env) (totalScore q10Score : Int)
    (patientID idSystem idValue encID apptID : String) (t0 : List RemoteCall) :
    Response × List RemoteCall :=
  if patientID = "" then
    if idSystem = "" ∨ idValue = "" then
      (⟨400, .error "provide patientId OR patientIdentifierSystem+patientIdentifierValue"⟩, t0)
    else
      match FindPatientIDByIdentifier (env.patientSearch idSystem idValue) with
      | .error _ =>
        (⟨400, .error "patient not found from identifier"⟩,
          t0 ++ [.patientSearch idSystem idValue])
      | .ok resolvedID =>
        let r := createAndRespond env totalScore q10Score resolvedID encID apptID
        (r.1, t0 ++ [.patientSearch idSystem idValue] ++ r.2)
  else
    let r := createAndRespond env totalScore q10Score patientID encID apptID
    (r.1, t0 ++ r.2)

/-- The handler `handleSubmitEPDS` on a parsed POST form: trim the
identifying fields, validate the ten answers (400 on first violation,
before any remote call), score, acquire the token (500 on failure; the
token fetch, when one happens, is the first remote call), resolve the
patient, and run the write sequence. -/
def handleSubmitEPDS (env : Env) (a : Authenticator) (form : Form) :
    Response × List RemoteCall :=
  let patientID := trimSpace form.patientId
  let idSystem := trimSpace form.patientIdentifierSystem
  let idValue := trimSpace form.patientIdentifierValue
  let encID := trimSpace form.encounterId
  let apptID := trimSpace form.appointmentId
  match validateScores form with
  | .error msg => (⟨400, .error msg⟩, [])
  | .ok epdsScores =>
    let totalScore := sumScores epdsScores
    let q10Score := q10Of epdsScores
    let g := GetAuthToken env.now env.authOutcome a
    let t0 : List RemoteCall := if g.2.2 then [.authFetch] else []
    match g.1 with
    | .error _ =>
      (⟨500, .error "Internal server error - authentication failed"⟩, t0)
    | .ok _token =>
      resolveAndContinue env totalScore q10Score patientID idSystem idValue encID apptID t0

/-- The two cascade lookup calls, as trace events. -/
def RemoteCall.isEncounterLookup : RemoteCall → Bool
  | .encounterByAppointment _ => true
  | .encounterBySubject _ => true
  | _ => false

/-- Calls against the remote record store (everything but the token fetch). -/
def RemoteCall.isRecordStoreCall : RemoteCall → Bool
  | .authFetch => false
  | _ => true

/-- The best-effort alert/notification calls, as trace events. -/
def RemoteCall.isAlertOrNotification : RemoteCall → Bool
  | .createFlag _ _ _ _ => true
  | .createCommunication _ _ _ _ => true
  | _ => false

/-- The subject id step 4 would settle on, read off the handler's
resolution logic: the trimmed direct id when non-empty, else the
identifier-search result when the pair is complete and the search
succeeds, else nothing. -/
def resolvedPid (env : Env) (form : Form) : Option String :=
  let pid := trimSpace form.patientId
  if pid = "" then
    let sys := trimSpace form.patientIdentifierSystem
    let v := trimSpace form.patientIdentifierValue
    if sys = "" ∨ v = "" then none
    else
      match FindPatientIDByIdentifier (env.patientSearch sys v) with
      | .ok r => some r
      | .error _ => none
  else some pid

/-! ### Concrete fixtures (used to witness the theorems below) -/

/-- Answer fields rendered from a list of integers (`q i` is answer `i`). -/
def qOf (answers : List Int) : Nat → String :=
  fun i => toString (answers.getD (i - 1) 0)

/-- A high-risk answer set: total 14, tenth answer 1. -/
def answersHigh : List Int := [3, 2, 1, 2, 1, 3, 1, 0, 0, 1]

/-- A low-risk answer set: total 2, tenth answer 0. -/
def answersLow : List Int := [0, 0, 0, 1, 0, 1, 0, 0, 0, 0]

/-- Form with the given identifying fields and answers. -/
def mkForm (pid sys val enc appt : String) (answers : List Int) : Form :=
  { patientId := pid
    patientIdentifierSystem := sys
    patientIdentifierValue := val
    encounterId := enc
    appointmentId := appt
    q := qOf answers }

/-- An environment in which every remote call succeeds. -/
def envHappy : Env :=
  { now := 0
    authOutcome := .resp 200 (some ⟨"tok", 3600⟩)
    patientSearch := fun _ _ => .resp 200 (some [some "pid-x"])
    encounterByAppt := fun _ => .resp 200 (some [some "encA"])
    encounterBySubject := fun _ => .resp 200 (some [some "encS"])
    obsCreate := fun _ _ => .resp 201 (some "obs-1")
    flagCreate := fun _ _ _ _ => .resp 201 (some "flag-1")
    commCreate := fun _ _ _ _ => .resp 201 (some "comm-1")
    alertProviderFHIRID := "Practitioner/prov" }

/-- An authenticator holding a token valid far beyond the lead time. -/
def cachedAuth : Authenticator :=
  { token := "cached", expiry := 100000, tokenBuffer := 300 }

/-- Environment whose identity service is unreachable. -/
def envAuthDown : Env := { envHappy with authOutcome := .netError }

/-- Environment whose record store answers the identifier search with
an upstream failure (HTTP 503). -/
def envSearchDown : Env :=
  { envHappy with patientSearch := fun _ _ => .resp 503 none }

/-- Environment whose record store rejects the Observation create (HTTP 500). -/
def envObsFail : Env :=
  { envHappy with obsCreate := fun _ _ => .resp 500 none }

/-- Environment for the degraded high-risk path: subject-based encounter
search finds nothing, and both best-effort writes fail. -/
def envDegraded : Env :=
  { envHappy with
    encounterBySubject := fun _ => .resp 200 (some [])
    flagCreate := fun _ _ _ _ => .resp 500 none
    commCreate := fun _ _ _ _ => .netError }

/-- A form whose seventh answer is out of range. -/
def formBadAnswer : Form :=
  { mkForm "p1" "" "" "" "" answersLow with
    q := fun i => if i = 7 then "5" else qOf answersLow i }

/-- No direct patient id; identifier pair incomplete (value missing). -/
def formNoPatient : Form := mkForm "" "sys" "" "" "" answersLow

/-- No direct patient id; complete identifier pair. -/
def formPairOnly : Form := mkForm "" "sys" "v1" "" "" answersLow

/-- Direct patient id, low-risk answers. -/
def formDirectLow : Form := mkForm "p1" "" "" "" "" answersLow

/-- Direct patient id, high-risk answers, no encounter or appointment id. -/
def formDirectHigh : Form := mkForm "p1" "" "" "" "" answersHigh

/-- Direct patient id, high-risk answers, explicit encounter id (and an
appointment id that must therefore be ignored). -/
def formWithEnc : Form := mkForm "p1" "" "" "enc9" "appt1" answersHigh

/-- Direct patient id together with an incomplete identifier pair. -/
def formDirectPair : Form := mkForm "p1" "sys" "" "" "" answersLow

/-! ## Theorems

### Basic lemmas about validation and scoring -/

theorem checkAnswer_ok_bounds {q : Nat → String} {i : Nat} {v : Int}
    (h : checkAnswer q i = .ok v) : 0 ≤ v ∧ v ≤ 3 := by
  unfold checkAnswer at h
  dsimp only at h
  split at h
  · exact absurd h (by simp)
  · split at h
    · exact absurd h (by simp)
    · rename_i v' _
      split at h
      · exact absurd h (by simp)
      · rename_i hrange
        push_neg at hrange
        cases h
        exact hrange

theorem checkAnswer_error_msg {q : Nat → String} {i : Nat} {m : String}
    (h : checkAnswer q i = .error m) :
    m = msgMissing i ∨ m = msgNotInt i ∨ m = msgRange i := by
  unfold checkAnswer at h
  dsimp only at h
  split at h
  · cases h; exact Or.inl rfl
  · split at h
    · cases h; exact Or.inr (Or.inl rfl)
    · split at h
      · cases h; exact Or.inr (Or.inr rfl)
      · exact absurd h (by simp)

theorem collectScores_length {q : Nat → String} :
    ∀ {l : List Nat} {vs : List Int}, collectScores q l = .ok vs →
      vs.length = l.length := by
  intro l
  induction l with
  | nil => intro vs h; cases h; rfl
  | cons i rest ih =>
    intro vs h
    unfold collectScores at h
    split at h
    · exact absurd h (by simp)
    · split at h
      · exact absurd h (by simp)
      · cases h; simp [ih (by assumption)]

theorem collectScores_bounds {q : Nat → String} :
    ∀ {l : List Nat} {vs : List Int}, collectScores q l = .ok vs →
      ∀ v ∈ vs, 0 ≤ v ∧ v ≤ 3 := by
  intro l
  induction l with
  | nil => intro vs h; cases h; intro v hv; cases hv
  | cons i rest ih =>
    intro vs h
    unfold collectScores at h
    split at h
    · exact absurd h (by simp)
    · rename_i v0 hv0
      split at h
      · exact absurd h (by simp)
      · cases h
        intro v hv
        rcases List.mem_cons.mp hv with rfl | hv
        · exact checkAnswer_ok_bounds hv0
        · exact ih (by assumption) v hv

theorem collectScores_error_of_mem {q : Nat → String} :
    ∀ {l : List Nat}, (∃ i ∈ l, ∃ e, checkAnswer q i = .error e) →
      ∃ j ∈ l, ∃ m, collectScores q l = .error m ∧ checkAnswer q j = .error m := by
  intro l
  induction l with
  | nil => rintro ⟨i, hi, -⟩; cases hi
  | cons i rest ih =>
    rintro ⟨i0, hi0, e0, he0⟩
    rcases List.mem_cons.mp hi0 with rfl | hmem
    · exact ⟨i0, List.mem_cons_self _ _, e0, by simp [collectScores, he0], he0⟩
    · cases hca : checkAnswer q i with
      | error e => exact ⟨i, List.mem_cons_self _ _, e, by simp [collectScores, hca], hca⟩
      | ok v =>
        obtain ⟨j, hj, m, hcol, hcj⟩ := ih ⟨i0, hmem, e0, he0⟩
        exact ⟨j, List.mem_cons_of_mem _ hj, m, by simp [collectScores, hca, hcol], hcj⟩

theorem sumScores_eq_sum (scores : List Int) : sumScores scores = scores.sum := by
  rw [sumScores, List.sum_eq_foldl]

theorem sumScores_nonneg {scores : List Int}
    (h : ∀ v ∈ scores, 0 ≤ v ∧ v ≤ 3) : 0 ≤ sumScores scores := by
  rw [sumScores_eq_sum]
  exact List.sum_nonneg (fun v hv => (h v hv).1)

theorem sumScores_le {scores : List Int} (hlen : scores.length = 10)
    (h : ∀ v ∈ scores, 0 ≤ v ∧ v ≤ 3) : sumScores scores ≤ 30 := by
  rw [sumScores_eq_sum]
  have := List.sum_le_card_nsmul scores 3 (fun v hv => (h v hv).2)
  rw [hlen] at this
  simpa using this

theorem collectScores_nth {q : Nat → String} :
    ∀ {l : List Nat} {vs : List Int}, collectScores q l = .ok vs →
      ∀ i, i < l.length → checkAnswer q (l.getD i 0) = .ok (vs.getD i 0) := by
  intro l
  induction l with
  | nil => intro vs _ i hi; cases hi
  | cons j rest ih =>
    intro vs h i hi
    unfold collectScores at h
    split at h
    · exact absurd h (by simp)
    · rename_i v0 hv0
      split at h
      · exact absurd h (by simp)
      · cases h
        cases i with
        | zero => simpa using hv0
        | succ i' =>
          simpa using ih (by assumption) i' (by simpa using hi)

/-! ### Run lemmas: the handler under each settled stage -/

theorem handler_validate_error {env : Env} {a : Authenticator} {form : Form} {m : String}
    (hval : validateScores form = .error m) :
    handleSubmitEPDS env a form = (⟨400, .error m⟩, []) := by
  unfold handleSubmitEPDS
  simp only [hval]

theorem handler_auth_error {env : Env} {a : Authenticator} {form : Form}
    {scores : List Int} {e : AuthErr}
    (hval : validateScores form = .ok scores)
    (hg : (GetAuthToken env.now env.authOutcome a).1 = .error e) :
    handleSubmitEPDS env a form =
      (⟨500, .error "Internal server error - authentication failed"⟩,
       if (GetAuthToken env.now env.authOutcome a).2.2 then [RemoteCall.authFetch] else []) := by
  unfold handleSubmitEPDS
  simp only [hval, hg]

theorem handler_auth_ok {env : Env} {a : Authenticator} {form : Form}
    {scores : List Int} {tok : String}
    (hval : validateScores form = .ok scores)
    (hg : (GetAuthToken env.now env.authOutcome a).1 = .ok tok) :
    handleSubmitEPDS env a form =
      resolveAndContinue env (sumScores scores) (q10Of scores)
        (trimSpace form.patientId) (trimSpace form.patientIdentifierSystem)
        (trimSpace form.patientIdentifierValue) (trimSpace form.encounterId)
        (trimSpace form.appointmentId)
        (if (GetAuthToken env.now env.authOutcome a).2.2 then [RemoteCall.authFetch] else []) := by
  unfold handleSubmitEPDS
  simp only [hval, hg]

theorem resolveAndContinue_direct {env : Env} {t q10 : Int}
    {pid sys val enc appt : String} {t0 : List RemoteCall} (h : pid ≠ "") :
    resolveAndContinue env t q10 pid sys val enc appt t0 =
      ((createAndRespond env t q10 pid enc appt).1,
       t0 ++ (createAndRespond env t q10 pid enc appt).2) := by
  unfold resolveAndContinue
  simp only [if_neg h]

theorem resolveAndContinue_pair_missing {env : Env} {t q10 : Int}
    {pid sys val enc appt : String} {t0 : List RemoteCall}
    (h : pid = "") (hp : sys = "" ∨ val = "") :
    resolveAndContinue env t q10 pid sys val enc appt t0 =
      (⟨400, .error "provide patientId OR patientIdentifierSystem+patientIdentifierValue"⟩, t0) := by
  unfold resolveAndContinue
  simp only [h, if_true, if_pos hp]

theorem resolveAndContinue_search_error {env : Env} {t q10 : Int}
    {pid sys val enc appt : String} {t0 : List RemoteCall} {e : LookupErr}
    (h : pid = "") (hs : sys ≠ "") (hv : val ≠ "")
    (hf : FindPatientIDByIdentifier (env.patientSearch sys val) = .error e) :
    resolveAndContinue env t q10 pid sys val enc appt t0 =
      (⟨400, .error "patient not found from identifier"⟩,
       t0 ++ [RemoteCall.patientSearch sys val]) := by
  unfold resolveAndContinue
  simp only [h, if_true, if_neg (not_or.mpr ⟨hs, hv⟩), hf]

theorem resolveAndContinue_search_ok {env : Env} {t q10 : Int}
    {pid sys val enc appt rid : String} {t0 : List RemoteCall}
    (h : pid = "") (hs : sys ≠ "") (hv : val ≠ "")
    (hf : FindPatientIDByIdentifier (env.patientSearch sys val) = .ok rid) :
    resolveAndContinue env t q10 pid sys val enc appt t0 =
      ((createAndRespond env t q10 rid enc appt).1,
       t0 ++ [RemoteCall.patientSearch sys val] ++ (createAndRespond env t q10 rid enc appt).2) := by
  unfold resolveAndContinue
  simp only [h, if_true, if_neg (not_or.mpr ⟨hs, hv⟩), hf]

theorem createAndRespond_obs_error {env : Env} {t q10 : Int}
    {pid enc appt : String} {e : CreateErr}
    (h : createResultID (env.obsCreate pid t) = .error e) :
    createAndRespond env t q10 pid enc appt =
      (⟨500, .error "Failed to create FHIR Observation"⟩,
       [RemoteCall.createObservation pid t]) := by
  unfold createAndRespond
  simp only [h]

theorem createAndRespond_ok_low {env : Env} {t q10 : Int}
    {pid enc appt obsId : String}
    (h : createResultID (env.obsCreate pid t) = .ok obsId)
    (hl : isHighRisk t q10 = false) :
    createAndRespond env t q10 pid enc appt =
      (⟨200, .success obsId t⟩, [RemoteCall.createObservation pid t]) := by
  unfold createAndRespond
  simp only [h, hl, Bool.false_eq_true, if_false]

theorem createAndRespond_ok_high {env : Env} {t q10 : Int}
    {pid enc appt obsId : String}
    (h : createResultID (env.obsCreate pid t) = .ok obsId)
    (hh : isHighRisk t q10 = true) :
    createAndRespond env t q10 pid enc appt =
      (⟨200, .success obsId t⟩,
       RemoteCall.createObservation pid t ::
         ((cascade env pid enc appt).2 ++
          [RemoteCall.createFlag pid (cascade env pid enc appt).1 t q10,
           RemoteCall.createCommunication pid env.alertProviderFHIRID t q10])) := by
  unfold createAndRespond
  simp only [h, hh, if_true]

theorem cascade_skip {env : Env} {pid enc appt : String} (h : enc ≠ "") :
    cascade env pid enc appt = (enc, []) := by
  unfold cascade
  simp only [if_neg h]

theorem cascade_subject_error {env : Env} {pid : String} {e : LookupErr}
    (hsub : FindActiveEncounterID (env.encounterBySubject pid) = .error e) :
    cascade env pid "" "" = ("", [RemoteCall.encounterBySubject pid]) := by
  unfold cascade
  simp [hsub]

theorem cascade_mem {env : Env} {pid enc appt : String} :
    ∀ c ∈ (cascade env pid enc appt).2,
      c = RemoteCall.encounterByAppointment appt ∨ c = RemoteCall.encounterBySubject pid := by
  intro c hc
  unfold cascade at hc
  repeat' split at hc
  all_goals (try (rw [apply_ite Prod.snd] at hc))
  all_goals (try (split at hc))
  all_goals simp_all

theorem mem_authTrace {b : Bool} {c : RemoteCall}
    (hc : c ∈ if b then [RemoteCall.authFetch] else []) : c = RemoteCall.authFetch := by
  split at hc <;> simp_all

theorem createAndRespond_mem {env : Env} {t q10 : Int} {pid enc appt : String}
    {c : RemoteCall} (hc : c ∈ (createAndRespond env t q10 pid enc appt).2) :
    c = RemoteCall.createObservation pid t ∨
    c ∈ (cascade env pid enc appt).2 ∨
    c = RemoteCall.createFlag pid (cascade env pid enc appt).1 t q10 ∨
    c = RemoteCall.createCommunication pid env.alertProviderFHIRID t q10 := by
  cases hobs : createResultID (env.obsCreate pid t) with
  | error e =>
    rw [createAndRespond_obs_error hobs] at hc
    simp at hc
    exact Or.inl hc
  | ok obsId =>
    cases hrisk : isHighRisk t q10 with
    | false =>
      rw [createAndRespond_ok_low hobs hrisk] at hc
      simp at hc
      exact Or.inl hc
    | true =>
      rw [createAndRespond_ok_high hobs hrisk] at hc
      simp only [List.mem_cons, List.mem_append] at hc
      rcases hc with h | h | h
      · exact Or.inl h
      · exact Or.inr (Or.inl h)
      · simp at h
        rcases h with h | h
        · exact Or.inr (Or.inr (Or.inl h))
        · exact Or.inr (Or.inr (Or.inr h))

theorem handler_resolved {env : Env} {a : Authenticator} {form : Form}
    {scores : List Int} {tok pid : String}
    (hval : validateScores form = .ok scores)
    (hg : (GetAuthToken env.now env.authOutcome a).1 = .ok tok)
    (hres : resolvedPid env form = some pid) :
    ∃ pre,
      handleSubmitEPDS env a form =
        ((createAndRespond env (sumScores scores) (q10Of scores) pid
            (trimSpace form.encounterId) (trimSpace form.appointmentId)).1,
         pre ++ (createAndRespond env (sumScores scores) (q10Of scores) pid
            (trimSpace form.encounterId) (trimSpace form.appointmentId)).2) ∧
      ∀ c ∈ pre, c = RemoteCall.authFetch ∨ ∃ s v, c = RemoteCall.patientSearch s v := by
  rw [handler_auth_ok hval hg]
  unfold resolvedPid at hres
  by_cases hpid : trimSpace form.patientId = ""
  · simp only [hpid, if_pos rfl] at hres
    by_cases hpair : trimSpace form.patientIdentifierSystem = "" ∨
        trimSpace form.patientIdentifierValue = ""
    · rw [if_pos hpair] at hres
      exact absurd hres (by simp)
    · rw [if_neg hpair] at hres
      obtain ⟨hs, hv⟩ := not_or.mp hpair
      cases hf : FindPatientIDByIdentifier
          (env.patientSearch (trimSpace form.patientIdentifierSystem)
            (trimSpace form.patientIdentifierValue)) with
      | error e => rw [hf] at hres; exact absurd hres (by simp)
      | ok rid =>
        rw [hf] at hres
        cases hres
        refine ⟨(if (GetAuthToken env.now env.authOutcome a).2.2
            then [RemoteCall.authFetch] else []) ++
            [RemoteCall.patientSearch (trimSpace form.patientIdentifierSystem)
              (trimSpace form.patientIdentifierValue)], ?_, ?_⟩
        · rw [resolveAndContinue_search_ok hpid hs hv hf]
        · intro c hcm
          rcases List.mem_append.mp hcm with h | h
          · exact Or.inl (mem_authTrace h)
          · simp at h
            exact Or.inr ⟨_, _, h⟩
  · rw [if_neg hpid] at hres
    cases hres
    refine ⟨if (GetAuthToken env.now env.authOutcome a).2.2
        then [RemoteCall.authFetch] else [], ?_, ?_⟩
    · rw [resolveAndContinue_direct hpid]
    · intro c hcm
      exact Or.inl (mem_authTrace hcm)

theorem handler_mem_lookup {env : Env} {a : Authenticator} {form : Form} {c : RemoteCall}
    (hc : c ∈ (handleSubmitEPDS env a form).2)
    (hl : c.isEncounterLookup = true) :
    ∃ pid, c ∈ (cascade env pid (trimSpace form.encounterId) (trimSpace form.appointmentId)).2 := by
  cases hval : validateScores form with
  | error m =>
    rw [handler_validate_error hval] at hc
    exact absurd hc (by simp)
  | ok scores =>
    cases hg : (GetAuthToken env.now env.authOutcome a).1 with
    | error e =>
      rw [handler_auth_error hval hg] at hc
      rw [mem_authTrace hc] at hl
      exact absurd hl (by simp [RemoteCall.isEncounterLookup])
    | ok tok =>
      rw [handler_auth_ok hval hg] at hc
      by_cases hpid : trimSpace form.patientId = ""
      · by_cases hpair : trimSpace form.patientIdentifierSystem = "" ∨
            trimSpace form.patientIdentifierValue = ""
        · rw [resolveAndContinue_pair_missing hpid hpair] at hc
          rw [mem_authTrace hc] at hl
          exact absurd hl (by simp [RemoteCall.isEncounterLookup])
        · obtain ⟨hs, hv⟩ := not_or.mp hpair
          cases hf : FindPatientIDByIdentifier
              (env.patientSearch (trimSpace form.patientIdentifierSystem)
                (trimSpace form.patientIdentifierValue)) with
          | error e =>
            rw [resolveAndContinue_search_error hpid hs hv hf] at hc
            rcases List.mem_append.mp hc with h | h
            · rw [mem_authTrace h] at hl
              exact absurd hl (by simp [RemoteCall.isEncounterLookup])
            · simp at h
              rw [h] at hl
              exact absurd hl (by simp [RemoteCall.isEncounterLookup])
          | ok rid =>
            rw [resolveAndContinue_search_ok hpid hs hv hf] at hc
            rcases List.mem_append.mp hc with h | h
            · rcases List.mem_append.mp h with h' | h'
              · rw [mem_authTrace h'] at hl
                exact absurd hl (by simp [RemoteCall.isEncounterLookup])
              · simp at h'
                rw [h'] at hl
                exact absurd hl (by simp [RemoteCall.isEncounterLookup])
            · rcases createAndRespond_mem h with h' | h' | h' | h'
              · rw [h'] at hl
                exact absurd hl (by simp [RemoteCall.isEncounterLookup])
              · exact ⟨rid, h'⟩
              · rw [h'] at hl
                exact absurd hl (by simp [RemoteCall.isEncounterLookup])
              · rw [h'] at hl
                exact absurd hl (by simp [RemoteCall.isEncounterLookup])
      · rw [resolveAndContinue_direct hpid] at hc
        rcases List.mem_append.mp hc with h | h
        · rw [mem_authTrace h] at hl
          exact absurd hl (by simp [RemoteCall.isEncounterLookup])
        · rcases createAndRespond_mem h with h' | h' | h' | h'
          · rw [h'] at hl
            exact absurd hl (by simp [RemoteCall.isEncounterLookup])
          · exact ⟨trimSpace form.patientId, h'⟩
          · rw [h'] at hl
            exact absurd hl (by simp [RemoteCall.isEncounterLookup])
          · rw [h'] at hl
            exact absurd hl (by simp [RemoteCall.isEncounterLookup])

theorem handler_response_cases (env : Env) (a : Authenticator) (form : Form) :
    (∃ m, validateScores form = .error m ∧
        (handleSubmitEPDS env a form).1 = ⟨400, .error m⟩) ∨
    (∃ scores, validateScores form = .ok scores ∧
      (((∃ e, (GetAuthToken env.now env.authOutcome a).1 = .error e) ∧
          (handleSubmitEPDS env a form).1 =
            ⟨500, .error "Internal server error - authentication failed"⟩) ∨
       ((trimSpace form.patientId = "" ∧
           (trimSpace form.patientIdentifierSystem = "" ∨
            trimSpace form.patientIdentifierValue = "")) ∧
          (handleSubmitEPDS env a form).1 =
            ⟨400, .error "provide patientId OR patientIdentifierSystem+patientIdentifierValue"⟩) ∨
       ((trimSpace form.patientId = "" ∧
           ∃ e, FindPatientIDByIdentifier
            (env.patientSearch (trimSpace form.patientIdentifierSystem)
              (trimSpace form.patientIdentifierValue)) = .error e) ∧
          (handleSubmitEPDS env a form).1 =
            ⟨400, .error "patient not found from identifier"⟩) ∨
       ((∃ pid e, resolvedPid env form = some pid ∧
            createResultID (env.obsCreate pid (sumScores scores)) = .error e) ∧
          (handleSubmitEPDS env a form).1 =
            ⟨500, .error "Failed to create FHIR Observation"⟩) ∨
       (∃ obsId, (handleSubmitEPDS env a form).1 =
            ⟨200, .success obsId (sumScores scores)⟩))) := by
  cases hval : validateScores form with
  | error m => exact Or.inl ⟨m, rfl, by rw [handler_validate_error hval]⟩
  | ok scores =>
    refine Or.inr ⟨scores, rfl, ?_⟩
    cases hg : (GetAuthToken env.now env.authOutcome a).1 with
    | error e => exact Or.inl ⟨⟨e, rfl⟩, by rw [handler_auth_error hval hg]⟩
    | ok tok =>
      refine Or.inr ?_
      by_cases hpid : trimSpace form.patientId = ""
      · by_cases hpair : trimSpace form.patientIdentifierSystem = "" ∨
            trimSpace form.patientIdentifierValue = ""
        · exact Or.inl ⟨⟨hpid, hpair⟩,
            by rw [handler_auth_ok hval hg, resolveAndContinue_pair_missing hpid hpair]⟩
        · refine Or.inr ?_
          obtain ⟨hs, hv⟩ := not_or.mp hpair
          cases hf : FindPatientIDByIdentifier
              (env.patientSearch (trimSpace form.patientIdentifierSystem)
                (trimSpace form.patientIdentifierValue)) with
          | error e =>
            exact Or.inl ⟨⟨hpid, e, rfl⟩,
              by rw [handler_auth_ok hval hg, resolveAndContinue_search_error hpid hs hv hf]⟩
          | ok rid =>
            refine Or.inr ?_
            have hres : resolvedPid env form = some rid := by
              unfold resolvedPid
              simp only [hpid, if_pos rfl, if_neg hpair, hf]
              simp
            cases hobs : createResultID (env.obsCreate rid (sumScores scores)) with
            | error e =>
              exact Or.inl ⟨⟨rid, e, hres, hobs⟩,
                by rw [handler_auth_ok hval hg, resolveAndContinue_search_ok hpid hs hv hf,
                       createAndRespond_obs_error hobs]⟩
            | ok obsId =>
              refine Or.inr ⟨obsId, ?_⟩
              cases hrisk : isHighRisk (sumScores scores) (q10Of scores) with
              | false =>
                rw [handler_auth_ok hval hg, resolveAndContinue_search_ok hpid hs hv hf,
                    createAndRespond_ok_low hobs hrisk]
              | true =>
                rw [handler_auth_ok hval hg, resolveAndContinue_search_ok hpid hs hv hf,
                    createAndRespond_ok_high hobs hrisk]
      · refine Or.inr (Or.inr ?_)
        have hres : resolvedPid env form = some (trimSpace form.patientId) := by
          unfold resolvedPid
          simp only [if_neg hpid]
        cases hobs : createResultID
            (env.obsCreate (trimSpace form.patientId) (sumScores scores)) with
        | error e =>
          exact Or.inl ⟨⟨trimSpace form.patientId, e, hres, hobs⟩,
            by rw [handler_auth_ok hval hg, resolveAndContinue_direct hpid,
                   createAndRespond_obs_error hobs]⟩
        | ok obsId =>
          refine Or.inr ⟨obsId, ?_⟩
          cases hrisk : isHighRisk (sumScores scores) (q10Of scores) with
          | false =>
            rw [handler_auth_ok hval hg, resolveAndContinue_direct hpid,
                createAndRespond_ok_low hobs hrisk]
          | true =>
            rw [handler_auth_ok hval hg, resolveAndContinue_direct hpid,
                createAndRespond_ok_high hobs hrisk]

/-! ### The claims -/

/-- C1: for every submission whose ten answers `q1..q10` each validate as
integers in `[0,3]`, the scores list is exactly the ten parsed answers,
the computed total is their sum and lies in `[0,30]`, and the risk
classification is high iff `total ≥ 13` or the tenth answer `≥ 1`; at the
boundary, total 13 with tenth answer 0 is high, total 12 with tenth
answer 1 is high, and total 12 with tenth answer 0 is low. -/
theorem score_engine_spec {form : Form} {scores : List Int}
    (hval : validateScores form = .ok scores) :
    scores.length = 10 ∧
    (∀ i, i < 10 → checkAnswer form.q (i + 1) = .ok (scores.getD i 0)) ∧
    (∀ v ∈ scores, 0 ≤ v ∧ v ≤ 3) ∧
    sumScores scores = scores.sum ∧
    (0 ≤ sumScores scores ∧ sumScores scores ≤ 30) ∧
    (isHighRisk (sumScores scores) (q10Of scores) = true ↔
      13 ≤ sumScores scores ∨ 1 ≤ q10Of scores) ∧
    (sumScores [2, 2, 2, 2, 2, 1, 1, 1, 0, 0] = 13 ∧
      q10Of [2, 2, 2, 2, 2, 1, 1, 1, 0, 0] = 0 ∧
      isHighRisk 13 0 = true) ∧
    (sumScores [2, 2, 2, 2, 2, 1, 0, 0, 0, 1] = 12 ∧
      q10Of [2, 2, 2, 2, 2, 1, 0, 0, 0, 1] = 1 ∧
      isHighRisk 12 1 = true) ∧
    (sumScores [2, 2, 2, 2, 2, 1, 1, 0, 0, 0] = 12 ∧
      q10Of [2, 2, 2, 2, 2, 1, 1, 0, 0, 0] = 0 ∧
      isHighRisk 12 0 = false) := by
  have hval' : collectScores form.q questionIndices = .ok scores := hval
  have hqlen : questionIndices.length = 10 := by decide
  have hlen : scores.length = 10 := by rw [collectScores_length hval', hqlen]
  have hb := collectScores_bounds hval'
  have hnth := collectScores_nth hval'
  have hq : ∀ i, i < 10 → questionIndices.getD i 0 = i + 1 := by decide
  refine ⟨hlen, ?_, hb, sumScores_eq_sum _,
    ⟨sumScores_nonneg hb, sumScores_le hlen hb⟩, ?_, by decide, by decide, by decide⟩
  · intro i hi
    have := hnth i (by rw [hqlen]; exact hi)
    rwa [hq i hi] at this
  · simp [isHighRisk]

/-- C1 witness: the theorem at a concrete submission with the high-risk
sample answers. -/
theorem score_engine_spec_witness :
    validateScores formDirectHigh = .ok answersHigh ∧
    sumScores answersHigh = answersHigh.sum ∧
    (0 ≤ sumScores answersHigh ∧ sumScores answersHigh ≤ 30) := by
  have h := @score_engine_spec formDirectHigh answersHigh (by decide)
  exact ⟨by decide, h.2.2.2.1, h.2.2.2.2.1⟩

/-- C4: every call of the token cache either returns the cached token with
no identity-service exchange (when a token is cached and `now` is before
`expiry - leadTime`), or performs exactly one exchange; when that exchange
returns HTTP 200 with a non-empty token, the token is stored (with expiry
`now + expiresIn`) and returned. -/
theorem GetAuthToken_spec (now : Int) (outcome : AuthFetchOutcome) (a : Authenticator) :
    (a.token ≠ "" ∧ now < a.expiry - a.tokenBuffer →
       GetAuthToken now outcome a = (.ok a.token, a, false)) ∧
    (¬(a.token ≠ "" ∧ now < a.expiry - a.tokenBuffer) →
       (GetAuthToken now outcome a).2.2 = true ∧
       ∀ r : AuthResponse, outcome = .resp 200 (some r) → r.accessToken ≠ "" →
         GetAuthToken now outcome a =
           (.ok r.accessToken,
            { token := r.accessToken, expiry := now + r.expiresIn,
              tokenBuffer := a.tokenBuffer }, true)) := by
  have hiff : tokenValid a now = true ↔ (a.token ≠ "" ∧ now < a.expiry - a.tokenBuffer) := by
    simp [tokenValid]
  constructor
  · intro h
    unfold GetAuthToken
    rw [if_pos (hiff.mpr h)]
  · intro h
    have hf : tokenValid a now = false := by
      cases htv : tokenValid a now
      · rfl
      · exact absurd (hiff.mp htv) h
    constructor
    · unfold GetAuthToken
      rw [if_neg (by simp [hf])]
    · intro r ho hne
      subst ho
      unfold GetAuthToken fetchNewToken
      rw [if_neg (by simp [hf]), if_neg (by simp [hf])]
      simp [hne]

/-- C4 witness: a cached-valid call returns without a fetch; a call on an
empty cache fetches once and stores the fresh token. -/
theorem GetAuthToken_spec_witness :
    GetAuthToken 0 (.resp 200 (some ⟨"new", 3600⟩)) ⟨"t", 1000, 300⟩ =
      (.ok "t", ⟨"t", 1000, 300⟩, false) ∧
    GetAuthToken 0 (.resp 200 (some ⟨"new", 3600⟩)) NewAuthenticator =
      (.ok "new", ⟨"new", 0 + 3600, 300⟩, true) := by
  constructor
  · exact (GetAuthToken_spec 0 (.resp 200 (some ⟨"new", 3600⟩)) ⟨"t", 1000, 300⟩).1
      (by decide)
  · exact ((GetAuthToken_spec 0 (.resp 200 (some ⟨"new", 3600⟩)) NewAuthenticator).2
      (by decide)).2 ⟨"new", 3600⟩ rfl (by decide)

/-- C9: whenever some answer `q1..q10` is missing, non-integer or out of
`[0,3]`, the handler answers 400 with the message produced for an
offending field (naming that field), and performs no remote call at all
(the trace is empty). -/
theorem invalid_answer_rejected (env : Env) (a : Authenticator) (form : Form)
    (h : ∃ i ∈ questionIndices, (checkAnswer form.q i).toOption = none) :
    ∃ j ∈ questionIndices, ∃ m,
      checkAnswer form.q j = .error m ∧
      (m = msgMissing j ∨ m = msgNotInt j ∨ m = msgRange j) ∧
      handleSubmitEPDS env a form = (⟨400, .error m⟩, []) := by
  have h' : ∃ i ∈ questionIndices, ∃ e, checkAnswer form.q i = .error e := by
    obtain ⟨i, hi, hnone⟩ := h
    cases hch : checkAnswer form.q i with
    | error e => exact ⟨i, hi, e, hch⟩
    | ok v => rw [hch] at hnone; exact absurd hnone (by simp [Except.toOption])
  obtain ⟨j, hj, m, hcol, hcj⟩ := collectScores_error_of_mem h'
  exact ⟨j, hj, m, hcj, checkAnswer_error_msg hcj,
    handler_validate_error (show validateScores form = .error m from hcol)⟩

/-- C9 witness: the theorem at a submission whose `q7` is `5`. -/
theorem invalid_answer_rejected_witness :
    ∃ j ∈ questionIndices, ∃ m,
      checkAnswer formBadAnswer.q j = .error m ∧
      (m = msgMissing j ∨ m = msgNotInt j ∨ m = msgRange j) ∧
      handleSubmitEPDS envHappy NewAuthenticator formBadAnswer = (⟨400, .error m⟩, []) :=
  invalid_answer_rejected envHappy NewAuthenticator formBadAnswer (by decide)

/-- C2 counterexample: a submission with valid answers, no patient id and
an incomplete identifier pair, arriving when no token is cached and the
identity service is down, is answered 500 (not 400) after one remote call
(the token fetch) — the claim promised a 400 and no remote calls. -/
theorem missing_identifiers_auth_first_cex :
    validateScores formNoPatient = .ok answersLow ∧
    trimSpace formNoPatient.patientId = "" ∧
    trimSpace formNoPatient.patientIdentifierValue = "" ∧
    handleSubmitEPDS envAuthDown NewAuthenticator formNoPatient =
      (⟨500, .error "Internal server error - authentication failed"⟩,
       [RemoteCall.authFetch]) ∧
    (handleSubmitEPDS envAuthDown NewAuthenticator formNoPatient).1.code ≠ 400 ∧
    (handleSubmitEPDS envAuthDown NewAuthenticator formNoPatient).2 ≠ [] := by
  decide

/-- C2 (amended): credential acquisition precedes the identifier check, so
a cold cache may cost one identity-service fetch (and an auth failure is
answered 500); provided credential acquisition succeeds, a submission with
valid answers, no patient id and an incomplete identifier pair is answered
400 `provide patientId OR patientIdentifierSystem+patientIdentifierValue`,
and no record-store call is made (the only possible remote call is the
token fetch). -/
theorem missing_identifiers_rejected (env : Env) (a : Authenticator) (form : Form)
    (scores : List Int) (tok : String)
    (hval : validateScores form = .ok scores)
    (hg : (GetAuthToken env.now env.authOutcome a).1 = .ok tok)
    (hpid : trimSpace form.patientId = "")
    (hpair : trimSpace form.patientIdentifierSystem = "" ∨
      trimSpace form.patientIdentifierValue = "") :
    (handleSubmitEPDS env a form).1 =
      ⟨400, .error "provide patientId OR patientIdentifierSystem+patientIdentifierValue"⟩ ∧
    ∀ c ∈ (handleSubmitEPDS env a form).2, c.isRecordStoreCall = false := by
  rw [handler_auth_ok hval hg, resolveAndContinue_pair_missing hpid hpair]
  exact ⟨rfl, fun c hc => by rw [mem_authTrace hc]; rfl⟩

/-- C2 witness: the amended theorem at a concrete submission with a warm
token cache. -/
theorem missing_identifiers_rejected_witness :
    (handleSubmitEPDS envHappy cachedAuth formNoPatient).1 =
      ⟨400, .error "provide patientId OR patientIdentifierSystem+patientIdentifierValue"⟩ ∧
    ∀ c ∈ (handleSubmitEPDS envHappy cachedAuth formNoPatient).2,
      c.isRecordStoreCall = false :=
  missing_identifiers_rejected envHappy cachedAuth formNoPatient answersLow "cached"
    (by decide) (by decide) (by decide) (by decide)

/-- C3 counterexample: an upstream record-store failure (HTTP 503) during
identifier resolution is answered 400 `patient not found from identifier`,
not 500 as the claim's mapping for upstream record-store failures requires. -/
theorem resolution_upstream_maps_to_400_cex :
    envSearchDown.patientSearch "sys" "v1" = .resp 503 none ∧
    FindPatientIDByIdentifier (envSearchDown.patientSearch "sys" "v1") =
      .error (.badStatus 503) ∧
    (handleSubmitEPDS envSearchDown cachedAuth formPairOnly).1 =
      ⟨400, .error "patient not found from identifier"⟩ ∧
    (handleSubmitEPDS envSearchDown cachedAuth formPairOnly).1.code ≠ 500 := by
  decide

/-- C3 (amended): every response of the handler is either a success
(200 with the primary-record id and the total), or an error object whose
status reflects the failure class as the code implements it: 400 for
answer-validation failures, for a missing patient identification, and for
any identifier-resolution failure (not-found or upstream, all reported as
`patient not found from identifier`); 500 for credential-acquisition
failures and for primary-record (Observation) creation failures. -/
theorem error_response_classification (env : Env) (a : Authenticator) (form : Form) :
    (∃ m, validateScores form = .error m ∧
        (handleSubmitEPDS env a form).1 = ⟨400, .error m⟩) ∨
    (∃ scores, validateScores form = .ok scores ∧
      (((∃ e, (GetAuthToken env.now env.authOutcome a).1 = .error e) ∧
          (handleSubmitEPDS env a form).1 =
            ⟨500, .error "Internal server error - authentication failed"⟩) ∨
       ((trimSpace form.patientId = "" ∧
           (trimSpace form.patientIdentifierSystem = "" ∨
            trimSpace form.patientIdentifierValue = "")) ∧
          (handleSubmitEPDS env a form).1 =
            ⟨400, .error "provide patientId OR patientIdentifierSystem+patientIdentifierValue"⟩) ∨
       ((trimSpace form.patientId = "" ∧
           ∃ e, FindPatientIDByIdentifier
            (env.patientSearch (trimSpace form.patientIdentifierSystem)
              (trimSpace form.patientIdentifierValue)) = .error e) ∧
          (handleSubmitEPDS env a form).1 =
            ⟨400, .error "patient not found from identifier"⟩) ∨
       ((∃ pid e, resolvedPid env form = some pid ∧
            createResultID (env.obsCreate pid (sumScores scores)) = .error e) ∧
          (handleSubmitEPDS env a form).1 =
            ⟨500, .error "Failed to create FHIR Observation"⟩) ∨
       (∃ obsId, (handleSubmitEPDS env a form).1 =
            ⟨200, .success obsId (sumScores scores)⟩))) :=
  handler_response_cases env a form

/-- C5: when the Observation create fails for the resolved patient, the
handler answers 500 `Failed to create FHIR Observation` and no Flag or
Communication call appears in the trace. -/
theorem primary_record_failure_aborts (env : Env) (a : Authenticator) (form : Form)
    (scores : List Int) (tok pid : String) (e : CreateErr)
    (hval : validateScores form = .ok scores)
    (hg : (GetAuthToken env.now env.authOutcome a).1 = .ok tok)
    (hres : resolvedPid env form = some pid)
    (hobs : createResultID (env.obsCreate pid (sumScores scores)) = .error e) :
    (handleSubmitEPDS env a form).1 =
      ⟨500, .error "Failed to create FHIR Observation"⟩ ∧
    ∀ c ∈ (handleSubmitEPDS env a form).2, c.isAlertOrNotification = false := by
  obtain ⟨pre, heq, hpre⟩ := handler_resolved hval hg hres
  rw [createAndRespond_obs_error hobs] at heq
  rw [heq]
  refine ⟨rfl, ?_⟩
  intro c hc
  rcases List.mem_append.mp hc with h | h
  · rcases hpre c h with h' | ⟨s, v, h'⟩ <;> rw [h'] <;> rfl
  · simp at h
    rw [h]
    rfl

/-- C5 witness: the theorem at a concrete submission whose Observation
create returns HTTP 500. -/
theorem primary_record_failure_aborts_witness :
    (handleSubmitEPDS envObsFail cachedAuth formDirectLow).1 =
      ⟨500, .error "Failed to create FHIR Observation"⟩ ∧
    ∀ c ∈ (handleSubmitEPDS envObsFail cachedAuth formDirectLow).2,
      c.isAlertOrNotification = false :=
  primary_record_failure_aborts envObsFail cachedAuth formDirectLow answersLow
    "cached" "p1" (.apiError 500) (by decide) (by decide) (by decide) (by decide)

/-- C6: a high-risk submission with a direct patient id and no
encounter/appointment id whose subject-based encounter resolution fails
still creates the primary record and reports success; the Flag call is
attempted with an empty encounter id (whose payload then carries no
encounter reference), the Communication call is attempted regardless of
the Flag call's outcome, and no appointment-based lookup occurs — the
Flag and Communication outcomes (`env.flagCreate`, `env.commCreate`) are
unconstrained, so neither failure alters the success response. -/
theorem high_risk_degraded_success (env : Env) (a : Authenticator) (form : Form)
    (scores : List Int) (tok obsId : String) (e : LookupErr)
    (hval : validateScores form = .ok scores)
    (hg : (GetAuthToken env.now env.authOutcome a).1 = .ok tok)
    (hpid : trimSpace form.patientId ≠ "")
    (henc : trimSpace form.encounterId = "")
    (happt : trimSpace form.appointmentId = "")
    (hhigh : isHighRisk (sumScores scores) (q10Of scores) = true)
    (hsub : FindActiveEncounterID
      (env.encounterBySubject (trimSpace form.patientId)) = .error e)
    (hobs : createResultID
      (env.obsCreate (trimSpace form.patientId) (sumScores scores)) = .ok obsId) :
    (handleSubmitEPDS env a form).1 = ⟨200, .success obsId (sumScores scores)⟩ ∧
    RemoteCall.createFlag (trimSpace form.patientId) "" (sumScores scores) (q10Of scores) ∈
      (handleSubmitEPDS env a form).2 ∧
    flagEncounterRef "" = none ∧
    RemoteCall.createCommunication (trimSpace form.patientId) env.alertProviderFHIRID
      (sumScores scores) (q10Of scores) ∈ (handleSubmitEPDS env a form).2 ∧
    RemoteCall.encounterBySubject (trimSpace form.patientId) ∈
      (handleSubmitEPDS env a form).2 ∧
    ∀ c ∈ (handleSubmitEPDS env a form).2,
      ∀ x, c ≠ RemoteCall.encounterByAppointment x := by
  have hcas : cascade env (trimSpace form.patientId) (trimSpace form.encounterId)
      (trimSpace form.appointmentId) =
      ("", [RemoteCall.encounterBySubject (trimSpace form.patientId)]) := by
    rw [henc, happt]
    exact cascade_subject_error hsub
  rw [handler_auth_ok hval hg, resolveAndContinue_direct hpid,
      createAndRespond_ok_high hobs hhigh, hcas]
  refine ⟨rfl, by simp, by decide, by simp, by simp, ?_⟩
  intro c hc x
  rcases List.mem_append.mp hc with h | h
  · rw [mem_authTrace h]
    simp
  · simp at h
    rcases h with h | h | h | h <;> rw [h] <;> simp

/-- C6 witness: the theorem at a concrete degraded environment in which
the subject search finds nothing and both best-effort writes fail. -/
theorem high_risk_degraded_success_witness :
    (handleSubmitEPDS envDegraded cachedAuth formDirectHigh).1 =
      ⟨200, .success "obs-1" (sumScores answersHigh)⟩ ∧
    RemoteCall.createFlag (trimSpace formDirectHigh.patientId) ""
        (sumScores answersHigh) (q10Of answersHigh) ∈
      (handleSubmitEPDS envDegraded cachedAuth formDirectHigh).2 ∧
    RemoteCall.createCommunication (trimSpace formDirectHigh.patientId)
        envDegraded.alertProviderFHIRID (sumScores answersHigh) (q10Of answersHigh) ∈
      (handleSubmitEPDS envDegraded cachedAuth formDirectHigh).2 := by
  have h := high_risk_degraded_success envDegraded cachedAuth formDirectHigh
    answersHigh "cached" "obs-1" .notFound (by decide) (by decide) (by decide)
    (by decide) (by decide) (by decide) (by decide) (by decide)
  exact ⟨h.1, h.2.1, h.2.2.2.1⟩

/-- C7: a submission with an explicit (non-blank) encounter id performs no
encounter-lookup call at all: neither the appointment-based nor the
subject-based search appears in the trace. -/
theorem explicit_encounter_skips_cascade (env : Env) (a : Authenticator) (form : Form)
    (h : trimSpace form.encounterId ≠ "") :
    ∀ c ∈ (handleSubmitEPDS env a form).2, c.isEncounterLookup = false := by
  intro c hc
  by_contra hne
  have hl : c.isEncounterLookup = true := by
    cases hcl : c.isEncounterLookup
    · exact absurd hcl hne
    · rfl
  obtain ⟨pid, hmem⟩ := handler_mem_lookup hc hl
  rw [cascade_skip h] at hmem
  exact absurd hmem (by simp)

/-- C7 witness: at a concrete high-risk submission with an explicit
encounter id (and an appointment id), the trace holds no lookup call. -/
theorem explicit_encounter_skips_cascade_witness :
    (handleSubmitEPDS envHappy cachedAuth formWithEnc).2.all
      (fun c => !c.isEncounterLookup) = true := by
  have h := explicit_encounter_skips_cascade envHappy cachedAuth formWithEnc (by decide)
  rw [List.all_eq_true]
  intro c hcm
  simp [h c hcm]

/-- C8: a low-risk submission (with the happy upstream path) creates the
primary record, makes no alert/notification call, and is answered 200
with the Observation id and the computed total. -/
theorem low_risk_no_alerts (env : Env) (a : Authenticator) (form : Form)
    (scores : List Int) (tok pid obsId : String)
    (hval : validateScores form = .ok scores)
    (hg : (GetAuthToken env.now env.authOutcome a).1 = .ok tok)
    (hres : resolvedPid env form = some pid)
    (hlow : isHighRisk (sumScores scores) (q10Of scores) = false)
    (hobs : createResultID (env.obsCreate pid (sumScores scores)) = .ok obsId) :
    (handleSubmitEPDS env a form).1 = ⟨200, .success obsId (sumScores scores)⟩ ∧
    RemoteCall.createObservation pid (sumScores scores) ∈ (handleSubmitEPDS env a form).2 ∧
    ∀ c ∈ (handleSubmitEPDS env a form).2,
      c.isAlertOrNotification = false ∧ c.isEncounterLookup = false := by
  obtain ⟨pre, heq, hpre⟩ := handler_resolved hval hg hres
  rw [createAndRespond_ok_low hobs hlow] at heq
  rw [heq]
  refine ⟨rfl, by simp, ?_⟩
  intro c hc
  rcases List.mem_append.mp hc with h | h
  · rcases hpre c h with h' | ⟨s, v, h'⟩ <;> rw [h'] <;> exact ⟨rfl, rfl⟩
  · simp at h
    rw [h]
    exact ⟨rfl, rfl⟩

/-- C8 witness: the theorem at a concrete low-risk submission on the
happy path. -/
theorem low_risk_no_alerts_witness :
    (handleSubmitEPDS envHappy cachedAuth formDirectLow).1 =
      ⟨200, .success "obs-1" (sumScores answersLow)⟩ ∧
    (handleSubmitEPDS envHappy cachedAuth formDirectLow).2.all
      (fun c => !c.isAlertOrNotification) = true := by
  have h := low_risk_no_alerts envHappy cachedAuth formDirectLow answersLow
    "cached" "p1" "obs-1" (by decide) (by decide) (by decide) (by decide) (by decide)
  refine ⟨h.1, ?_⟩
  rw [List.all_eq_true]
  intro c hcm
  simp [(h.2.2 c hcm).1]

/-- C10: when the trimmed direct patient id is non-empty, the identifier
pair is ignored entirely — the handler's output does not depend on the
pair fields, no identifier-search call is made, and a 400 response can
only stem from answer validation (so an incomplete pair causes no
InvalidInput error). -/
theorem direct_patient_id_ignores_pair (env : Env) (a : Authenticator) (form : Form)
    (h : trimSpace form.patientId ≠ "") :
    (∀ s v, handleSubmitEPDS env a
        { form with patientIdentifierSystem := s, patientIdentifierValue := v } =
      handleSubmitEPDS env a form) ∧
    (∀ c ∈ (handleSubmitEPDS env a form).2, ∀ s v, c ≠ RemoteCall.patientSearch s v) ∧
    ((handleSubmitEPDS env a form).1.code = 400 →
      ∃ m, validateScores form = .error m ∧
        (handleSubmitEPDS env a form).1 = ⟨400, .error m⟩) := by
  refine ⟨?_, ?_, ?_⟩
  · intro s v
    cases hval : validateScores form with
    | error m =>
      rw [handler_validate_error hval, handler_validate_error
        (show validateScores { form with patientIdentifierSystem := s, patientIdentifierValue := v } = .error m from hval)]
    | ok scores =>
      cases hg : (GetAuthToken env.now env.authOutcome a).1 with
      | error e =>
        rw [handler_auth_error hval hg, handler_auth_error
          (show validateScores { form with patientIdentifierSystem := s, patientIdentifierValue := v } = .ok scores from hval) hg]
      | ok tok =>
        rw [handler_auth_ok hval hg, handler_auth_ok
          (show validateScores { form with patientIdentifierSystem := s, patientIdentifierValue := v } = .ok scores from hval) hg,
          resolveAndContinue_direct h, resolveAndContinue_direct
          (show trimSpace ({ form with patientIdentifierSystem := s, patientIdentifierValue := v } : Form).patientId ≠ "" from h)]
  · intro c hc s v
    cases hval : validateScores form with
    | error m =>
      rw [handler_validate_error hval] at hc
      exact absurd hc (by simp)
    | ok scores =>
      cases hg : (GetAuthToken env.now env.authOutcome a).1 with
      | error e =>
        rw [handler_auth_error hval hg] at hc
        rw [mem_authTrace hc]
        simp
      | ok tok =>
        rw [handler_auth_ok hval hg, resolveAndContinue_direct h] at hc
        rcases List.mem_append.mp hc with hm | hm
        · rw [mem_authTrace hm]
          simp
        · rcases createAndRespond_mem hm with h' | h' | h' | h'
          · rw [h']; simp
          · rcases cascade_mem _ h' with h'' | h'' <;> rw [h''] <;> simp
          · rw [h']; simp
          · rw [h']; simp
  · intro hcode
    rcases handler_response_cases env a form with ⟨m, hv, h1⟩ | ⟨scores, hv, hrest⟩
    · exact ⟨m, hv, h1⟩
    · exfalso
      rcases hrest with ⟨-, h1⟩ | ⟨⟨hpid', -⟩, -⟩ | ⟨⟨hpid', -⟩, -⟩ | ⟨-, h1⟩ | ⟨obsId, h1⟩
      · rw [h1] at hcode; simp at hcode
      · exact h hpid'
      · exact h hpid'
      · rw [h1] at hcode; simp at hcode
      · rw [h1] at hcode; simp at hcode

/-- C10 witness: at a concrete submission carrying both a direct patient
id and an incomplete pair, the pair may be replaced freely, the trace
holds no identifier search, and the submission is not rejected. -/
theorem direct_patient_id_ignores_pair_witness :
    handleSubmitEPDS envHappy cachedAuth
        { formDirectPair with patientIdentifierSystem := "other", patientIdentifierValue := "v9" } =
      handleSubmitEPDS envHappy cachedAuth formDirectPair ∧
    (handleSubmitEPDS envHappy cachedAuth formDirectPair).2.all
      (fun c => match c with
        | RemoteCall.patientSearch _ _ => false
        | _ => true) = true ∧
    (handleSubmitEPDS envHappy cachedAuth formDirectPair).1.code = 200 := by
  have h := direct_patient_id_ignores_pair envHappy cachedAuth formDirectPair (by decide)
  refine ⟨h.1 "other" "v9", ?_, by decide⟩
  rw [List.all_eq_true]
  intro c hcm
  cases c with
  | patientSearch s v => exact absurd rfl (h.2.1 _ hcm s v)
  | authFetch => rfl
  | encounterByAppointment x => rfl
  | encounterBySubject x => rfl
  | createObservation x y => rfl
  | createFlag x y z w => rfl
  | createCommunication x y z w => rfl

end EPDS
